import Mathlib

/-!
Verification development for the komoswitch workspace-switcher core.

The Rust source is embedded shallowly:

* `komo.rs` — the snapshot projector `workspaces_from_state`, the two
  relevance filters `should_update_sm` / `should_update_wme`, and the
  per-connection body of the listen loop (`process_payload`,
  `listen_steps`, `retry_register`, `reconnect_after_disconnect`).
* `workspaces.rs` — the diff engine `Workspaces.try_update` and
  `Workspaces.name_changed`.
* `msgs.rs` — the boxed cross-thread message encoding
  (`UpdateWorkspaces.to_wmdmsg` / `UpdateWorkspaces.from_wndmsg`),
  with the process heap made explicit.

External `komorebi_client` data (monitors, workspaces, rings) is modelled
by the record types below, keeping exactly the fields the embedded code
reads: a ring is a sequence together with a focused index, a daemon-side
workspace has an optional name and an emptiness indicator.
-/

namespace Komoswitch

/-- External `komorebi_client::Ring<T>`: an ordered sequence plus a focused
index. `focusedElem` models `Ring::focused()`, which is
`self.elements.get(self.focused)`. -/
structure Ring (α : Type) where
  elements : List α
  focused : Nat
deriving DecidableEq

def Ring.focusedElem {α : Type} (r : Ring α) : Option α :=
  r.elements.get? r.focused

/-- External `komorebi_client::Workspace`, restricted to those fields the
embedded code reads: the optional daemon-supplied `name`, and the result of
`Workspace::is_empty()` recorded as a field. -/
structure KWorkspace where
  name : Option String
  is_empty : Bool
deriving DecidableEq

/-- External `komorebi_client::Monitor`, restricted to its workspace ring.
`Monitor::focused_workspace_idx()` returns the ring's focused index and
`Monitor::workspaces()` its element list. -/
structure Monitor where
  workspaces : Ring KWorkspace
deriving DecidableEq

def Monitor.focused_workspace_idx (m : Monitor) : Nat :=
  m.workspaces.focused

/-- External `komorebi_client::State`, restricted to its monitor ring. -/
structure State where
  monitors : Ring Monitor
deriving DecidableEq

/-- `komo.rs` `enum WorkspaceState`. -/
inductive WorkspaceState where
  | Empty
  | NonEmpty
  | Focused
deriving DecidableEq

/-- `komo.rs` `struct Workspace { name, state }`. -/
structure Workspace where
  name : String
  state : WorkspaceState
deriving DecidableEq

/-- `komo.rs` `workspaces_from_state` (lines 27-49): select the focused
monitor (error if none), then map each workspace at index `idx` to a view
record whose name falls back to `(idx + 1).to_string()` and whose state is
`Focused` at the focused index, else `Empty`/`NonEmpty` by occupancy. -/
def workspaces_from_state (state : State) : Except String (List Workspace) :=
  match state.monitors.focusedElem with
  | none => .error "No focused monintor?"
  | some monitor =>
    let focused_workspace := monitor.focused_workspace_idx
    .ok (monitor.workspaces.elements.enum.map (fun p =>
      let idx := p.1
      let w := p.2
      let name := w.name.getD (toString (idx + 1))
      let st :=
        if focused_workspace = idx then WorkspaceState.Focused
        else if w.is_empty then WorkspaceState.Empty
        else WorkspaceState.NonEmpty
      { name := name, state := st }))

/-- External `komorebi_client::SocketMessage`, restricted to the variants
named (matched or commented) in `komo.rs`; payload types are flattened to
`Nat`/`String` since the filter never inspects them. -/
inductive SocketMessage where
  | FocusWorkspaceNumber (n : Nat)
  | FocusMonitorNumber (n : Nat)
  | FocusMonitorWorkspaceNumber (n m : Nat)
  | FocusNamedWorkspace (s : String)
  | FocusWorkspaceNumbers (n : Nat)
  | CycleFocusMonitor (d : Nat)
  | CycleFocusWorkspace (d : Nat)
  | ReloadConfiguration
  | ReplaceConfiguration (p : String)
  | CompleteConfiguration
  | ReloadStaticConfiguration (p : String)
  | MoveContainerToMonitorNumber (n : Nat)
  | MoveContainerToMonitorWorkspaceNumber (n m : Nat)
  | MoveContainerToNamedWorkspace (s : String)
  | MoveContainerToWorkspaceNumber (n : Nat)
  | MoveWorkspaceToMonitorNumber (n : Nat)
  | CycleMoveContainerToMonitor (d : Nat)
  | CycleMoveContainerToWorkspace (d : Nat)
  | CycleMoveWorkspaceToMonitor (d : Nat)
  | CloseWorkspace
  | SendContainerToMonitorNumber (n : Nat)
  | SendContainerToMonitorWorkspaceNumber (n m : Nat)
  | SendContainerToNamedWorkspace (s : String)
  | SendContainerToWorkspaceNumber (n : Nat)
  | CycleSendContainerToMonitor (d : Nat)
  | CycleSendContainerToWorkspace (d : Nat)
  | Hide (h : Nat)
  | Minimize (h : Nat)
  | Show (h : Nat)
  | TitleUpdate (h : Nat)
deriving DecidableEq

/-- External `komorebi_client::WindowManagerEvent`, restricted to the
variants named (matched or commented) in `komo.rs`. -/
inductive WindowManagerEvent where
  | Cloak (e w : Nat)
  | Uncloak (e w : Nat)
  | Destroy (e w : Nat)
  | FocusChange (e w : Nat)
  | Hide (e w : Nat)
deriving DecidableEq

/-- `komo.rs` `should_update_wme` (lines 181-189): `matches!` on
cloak/uncloak/destroy; everything else (focus-change, hide) falls to the
wildcard. -/
def should_update_wme (notif : WindowManagerEvent) : Bool :=
  match notif with
  | .Cloak _ _ => true
  | .Uncloak _ _ => true
  | .Destroy _ _ => true
  | _ => false

/-- `komo.rs` `should_update_sm` (lines 191-224): `matches!` on the listed
relevant command variants; everything else (hide, minimize, show,
title-update) falls to the wildcard. -/
def should_update_sm (notif : SocketMessage) : Bool :=
  match notif with
  | .FocusWorkspaceNumber _ => true
  | .FocusMonitorNumber _ => true
  | .FocusMonitorWorkspaceNumber _ _ => true
  | .FocusNamedWorkspace _ => true
  | .FocusWorkspaceNumbers _ => true
  | .CycleFocusMonitor _ => true
  | .CycleFocusWorkspace _ => true
  | .ReloadConfiguration => true
  | .ReplaceConfiguration _ => true
  | .CompleteConfiguration => true
  | .ReloadStaticConfiguration _ => true
  | .MoveContainerToMonitorNumber _ => true
  | .MoveContainerToMonitorWorkspaceNumber _ _ => true
  | .MoveContainerToNamedWorkspace _ => true
  | .MoveContainerToWorkspaceNumber _ => true
  | .MoveWorkspaceToMonitorNumber _ => true
  | .CycleMoveContainerToMonitor _ => true
  | .CycleMoveContainerToWorkspace _ => true
  | .CycleMoveWorkspaceToMonitor _ => true
  | .CloseWorkspace => true
  | .SendContainerToMonitorNumber _ => true
  | .SendContainerToMonitorWorkspaceNumber _ _ => true
  | .SendContainerToNamedWorkspace _ => true
  | .SendContainerToWorkspaceNumber _ => true
  | .CycleSendContainerToMonitor _ => true
  | .CycleSendContainerToWorkspace _ => true
  | _ => false

/-- External `komorebi_client::NotificationEvent`. -/
inductive NotificationEvent where
  | Socket (m : SocketMessage)
  | WindowManager (e : WindowManagerEvent)
deriving DecidableEq

/-- External `komorebi_client::Notification`: an event plus the full state
at the time of the event. -/
structure Notification where
  event : NotificationEvent
  state : State
deriving DecidableEq

/-- `komo.rs` lines 151-155: the `should_update` match on
`notification.event` with its two guarded arms. -/
def should_update_of_event (event : NotificationEvent) : Bool :=
  match event with
  | .Socket notif => should_update_sm notif
  | .WindowManager notif => should_update_wme notif

/-- `workspaces.rs` `struct ChangedWorkspace`. -/
structure ChangedWorkspace where
  data : Workspace
  name_changed : Bool
  state_changed : Bool
deriving DecidableEq

/-- `workspaces.rs` `struct Workspaces`. -/
structure Workspaces where
  data : List ChangedWorkspace
deriving DecidableEq

/-- One iteration of the equal-length loop body of `try_update`
(`workspaces.rs` lines 31-43) on slot `current` against incoming
`workspace`: each field is overwritten and its flag raised only when it
differs; returns the updated slot and whether this slot contributed to
`changed`. -/
def update_slot (current : ChangedWorkspace) (workspace : Workspace) :
    ChangedWorkspace × Bool :=
  let step1 :=
    if current.data.name ≠ workspace.name then
      ({ current with
          data := { current.data with name := workspace.name },
          name_changed := true }, true)
    else (current, false)
  let current1 := step1.1
  let changed1 := step1.2
  if current1.data.state ≠ workspace.state then
    ({ current1 with
        data := { current1.data with state := workspace.state },
        state_changed := true }, true)
  else (current1, changed1)

/-- `workspaces.rs` `Workspaces::try_update` (lines 28-56). The Rust method
mutates `self` and returns a `bool`; here it returns the new model paired
with that `bool`. Equal slot counts: per-slot update via `update_slot`,
`changed` is the disjunction over slots. Different counts: the model is
replaced wholesale with both flags raised on every slot, returning `true`. -/
def Workspaces.try_update (self : Workspaces) (workspaces : List Workspace) :
    Workspaces × Bool :=
  if self.data.length = workspaces.length then
    let updated := (self.data.zip workspaces).map (fun p => update_slot p.1 p.2)
    ({ data := updated.map Prod.fst }, updated.any Prod.snd)
  else
    ({ data := workspaces.map (fun ws =>
        { data := ws, name_changed := true, state_changed := true }) }, true)

/-- `workspaces.rs` `Workspaces::name_changed` (lines 58-60). -/
def Workspaces.name_changed (self : Workspaces) : Bool :=
  self.data.any (fun ws => ws.name_changed)

/-- Outcome of the two serde decode attempts on one connection's buffer
(`komo.rs` lines 129-147): `serde_json::from_slice::<Value>` failing
(non-UTF8 bytes or malformed JSON), `serde_json::from_value::<Notification>`
failing, or a successfully decoded notification. serde itself is external,
so a connection is modelled by which of the three cases its bytes fall in. -/
inductive Decoded where
  | invalidJson
  | invalidNotification
  | decoded (n : Notification)
deriving DecidableEq

/-- What one non-disconnect iteration of the listen loop does. -/
inductive StepResult where
  | skip
  | delivered (ws : List Workspace)
deriving DecidableEq

/-- `komo.rs` lines 129-173, the per-connection body after a non-empty
read: both decode failures `continue` the loop; an irrelevant notification
is skipped; a projection failure is logged and skipped; otherwise the
snapshot is posted to the consumer window, and the `?` on
`hwnd.PostMessage(..)` propagates a posting error out of
`listen_for_workspaces`. `post` stands for `hwnd.PostMessage` composed with
`UpdateWorkspaces::to_wmdmsg`. -/
def process_payload (d : Decoded)
    (post : List Workspace → Except String Unit) : Except String StepResult :=
  match d with
  | .invalidJson => .ok .skip
  | .invalidNotification => .ok .skip
  | .decoded notification =>
    let should_update := should_update_of_event notification.event
    if !should_update then .ok .skip
    else
      match workspaces_from_state notification.state with
      | .error _ => .ok .skip
      | .ok new_workspaces =>
        match post new_workspaces with
        | .error e => .error e
        | .ok _ => .ok (.delivered new_workspaces)

/-- The listen loop of `komo.rs` run over a finite trace of decoded
connections: collects the snapshots delivered in order, stopping with the
error if an iteration propagates one. -/
def listen_steps (ds : List Decoded)
    (post : List Workspace → Except String Unit) :
    Except String (List (List Workspace)) :=
  match ds with
  | [] => .ok []
  | d :: rest =>
    match process_payload d post with
    | .error e => .error e
    | .ok .skip => listen_steps rest post
    | .ok (.delivered ws) =>
      match listen_steps rest post with
      | .error e => .error e
      | .ok deliveries => .ok (ws :: deliveries)

/-- `komo.rs` lines 118-122: `while let Err(e) = send_message { sleep 1 }`.
Given the outcomes of successive `send_message` attempts (`true` = `Ok`),
returns the list of sleep durations (in seconds) performed between
attempts, or `none` if no attempt in the trace succeeds (the loop is still
retrying). -/
def retry_register (results : List Bool) : Option (List Nat) :=
  match results with
  | [] => none
  | ok :: rest =>
    if ok then some []
    else (retry_register rest).map (fun sleeps => 1 :: sleeps)

/-- `komo.rs` lines 113-127, the zero-byte-read branch: sleep 30 seconds,
then retry the `AddSubscriberSocket` registration until it succeeds
(`retry_register`), then `continue` listening. Returns all sleeps performed
in order, or `none` while registration keeps failing. -/
def reconnect_after_disconnect (results : List Bool) : Option (List Nat) :=
  (retry_register results).map (fun sleeps => 30 :: sleeps)

/-- `winsafe::msg::WndMsg`: message id, `wparam`, and `lparam` (here the
address of the boxed payload). -/
structure WndMsg where
  msg_id : Nat
  wparam : Nat
  lparam : Nat
deriving DecidableEq

/-- The process heap restricted to boxed `Ring<Workspace>` allocations:
a partial map from addresses to live boxes plus a fresh-address counter. -/
structure BoxHeap where
  mem : Nat → Option (Ring KWorkspace)
  next : Nat

namespace UpdateWorkspaces

/-- `msgs.rs` `UpdateWorkspaces::ID = WM::APP + 1` (`WM_APP = 0x8000`). -/
def ID : Nat := 0x8000 + 1

/-- `msgs.rs` `UpdateWorkspaces::to_wmdmsg` (lines 11-20): box the value
(allocate it on the heap), leak the box (`Box::into_raw`), and put its
address in `lparam`. -/
def to_wmdmsg (h : BoxHeap) (workspaces : Ring KWorkspace) :
    BoxHeap × WndMsg :=
  ({ mem := fun a => if a = h.next then some workspaces else h.mem a,
     next := h.next + 1 },
   { msg_id := ID, wparam := 0, lparam := h.next })

/-- `msgs.rs` `UpdateWorkspaces::from_wndmsg` (lines 22-25):
`Box::from_raw` on `lparam` reconstitutes ownership — the value is read out
and the allocation ceases to be owned by the heap (the box is consumed). -/
def from_wndmsg (h : BoxHeap) (p : WndMsg) :
    Option (Ring KWorkspace) × BoxHeap :=
  (h.mem p.lparam,
   { h with mem := fun a => if a = p.lparam then none else h.mem a })

end UpdateWorkspaces

/-! ## Helper lemmas about the diff engine -/

/-- `any` after a type-changing `map`. -/
theorem any_map_poly {α β : Type} (f : α → β) (p : β → Bool) :
    ∀ l : List α, (l.map f).any p = l.any (p ∘ f)
  | [] => rfl
  | a :: l => by simp [List.any_cons, any_map_poly f p l, Function.comp]

/-- Closed form of one slot update: the slot's data becomes the incoming
workspace, each flag is the old flag OR-ed with whether the corresponding
field differs, and the returned change bit is whether either field differs. -/
theorem update_slot_spec (c : ChangedWorkspace) (w : Workspace) :
    update_slot c w =
      ({ data := w,
         name_changed := c.name_changed || decide ¬(c.data.name = w.name),
         state_changed := c.state_changed || decide ¬(c.data.state = w.state) },
       (decide ¬(c.data.name = w.name) || decide ¬(c.data.state = w.state))) := by
  obtain ⟨⟨cn, cs⟩, fn, fs⟩ := c
  obtain ⟨wn, wst⟩ := w
  by_cases hn : cn = wn <;> by_cases hs : cs = wst <;>
    simp [update_slot, hn, hs]

/-- Closed form of `try_update` at equal slot counts. -/
theorem try_update_eq_length (m : Workspaces) (ws : List Workspace)
    (h : m.data.length = ws.length) :
    m.try_update ws =
      ({ data := List.zipWith (fun c w =>
            { data := w,
              name_changed := c.name_changed || decide ¬(c.data.name = w.name),
              state_changed := c.state_changed || decide ¬(c.data.state = w.state) })
          m.data ws },
       (m.data.zip ws).any (fun p =>
         decide ¬(p.1.data.name = p.2.name) || decide ¬(p.1.data.state = p.2.state))) := by
  unfold Workspaces.try_update
  rw [if_pos h]
  refine Prod.ext ?_ ?_
  · show Workspaces.mk _ = Workspaces.mk _
    congr 1
    rw [List.map_map, List.zip_eq_zipWith, List.map_zipWith]
    simp only [Function.comp, update_slot_spec]
  · show List.any _ _ = List.any _ _
    rw [any_map_poly]
    congr 1
    funext p
    simp only [Function.comp, update_slot_spec]

/-! ## Claim theorems -/

/-- C1 (counterexample to the claim as stated): starting from the empty
model, a structural update installs slot `"1"`/`Empty` with both flags set;
a second update with the identical snapshot leaves the label and
classification unchanged (the update even reports no change), yet both
flags remain `true` — so a slot whose label and classification are both
unchanged does not end with its flags false. -/
theorem c1_flags_not_reset_counterexample :
    ((((Workspaces.mk []).try_update [{ name := "1", state := .Empty }]).1.try_update
        [{ name := "1", state := .Empty }]).1.data.map
      (fun cw => (cw.data.name, cw.name_changed, cw.state_changed))
        = [("1", true, true)]) ∧
    (((Workspaces.mk []).try_update [{ name := "1", state := .Empty }]).1.try_update
        [{ name := "1", state := .Empty }]).2 = false := by
  constructor
  · rfl
  · rfl

/-- C1 (amended): at equal slot counts, after the update each slot holds
the new label and classification, and each flag is its previous value OR-ed
with whether the corresponding field differs — flags are raised exactly at
differing slots but are never cleared; a slot whose fields are unchanged
keeps its prior flags. -/
theorem c1_try_update_equal_flags (m : Workspaces) (ws : List Workspace)
    (h : m.data.length = ws.length) :
    (m.try_update ws).1.data =
      List.zipWith (fun c w =>
        { data := w,
          name_changed := c.name_changed || decide ¬(c.data.name = w.name),
          state_changed := c.state_changed || decide ¬(c.data.state = w.state) })
        m.data ws := by
  rw [try_update_eq_length m ws h]

/-- Witness for C1 (amended) at a concrete model and snapshot: the name
differs (flag raised from `false`), the state is unchanged (previously
raised flag kept). -/
theorem c1_try_update_equal_flags_witness :
    ((Workspaces.mk
        [{ data := { name := "a", state := .Empty },
           name_changed := false, state_changed := true }]).try_update
      [{ name := "b", state := .Empty }]).1.data =
      [{ data := { name := "b", state := .Empty },
         name_changed := true, state_changed := true }] := by
  have h := c1_try_update_equal_flags
    (Workspaces.mk
      [{ data := { name := "a", state := .Empty },
         name_changed := false, state_changed := true }])
      [{ name := "b", state := .Empty }] (by decide)
  rw [h]
  decide

/-- C2: the relevance filter judges relevant exactly the listed daemon
command kinds — all focus-switch variants, cycle-focus, every
move/send-container-or-workspace-to-monitor-or-workspace variant, workspace
close, and configuration reload/replace/complete — while hide, minimize,
show and title-update commands are irrelevant; among window-manager
lifecycle events exactly cloak, uncloak and destroy are relevant, while
focus-change and hide are irrelevant. -/
theorem c2_filter_table :
    (∀ n, should_update_sm (.FocusWorkspaceNumber n) = true) ∧
    (∀ n, should_update_sm (.FocusMonitorNumber n) = true) ∧
    (∀ n m, should_update_sm (.FocusMonitorWorkspaceNumber n m) = true) ∧
    (∀ s, should_update_sm (.FocusNamedWorkspace s) = true) ∧
    (∀ n, should_update_sm (.FocusWorkspaceNumbers n) = true) ∧
    (∀ d, should_update_sm (.CycleFocusMonitor d) = true) ∧
    (∀ d, should_update_sm (.CycleFocusWorkspace d) = true) ∧
    (should_update_sm .ReloadConfiguration = true) ∧
    (∀ p, should_update_sm (.ReplaceConfiguration p) = true) ∧
    (should_update_sm .CompleteConfiguration = true) ∧
    (∀ p, should_update_sm (.ReloadStaticConfiguration p) = true) ∧
    (∀ n, should_update_sm (.MoveContainerToMonitorNumber n) = true) ∧
    (∀ n m, should_update_sm (.MoveContainerToMonitorWorkspaceNumber n m) = true) ∧
    (∀ s, should_update_sm (.MoveContainerToNamedWorkspace s) = true) ∧
    (∀ n, should_update_sm (.MoveContainerToWorkspaceNumber n) = true) ∧
    (∀ n, should_update_sm (.MoveWorkspaceToMonitorNumber n) = true) ∧
    (∀ d, should_update_sm (.CycleMoveContainerToMonitor d) = true) ∧
    (∀ d, should_update_sm (.CycleMoveContainerToWorkspace d) = true) ∧
    (∀ d, should_update_sm (.CycleMoveWorkspaceToMonitor d) = true) ∧
    (should_update_sm .CloseWorkspace = true) ∧
    (∀ n, should_update_sm (.SendContainerToMonitorNumber n) = true) ∧
    (∀ n m, should_update_sm (.SendContainerToMonitorWorkspaceNumber n m) = true) ∧
    (∀ s, should_update_sm (.SendContainerToNamedWorkspace s) = true) ∧
    (∀ n, should_update_sm (.SendContainerToWorkspaceNumber n) = true) ∧
    (∀ d, should_update_sm (.CycleSendContainerToMonitor d) = true) ∧
    (∀ d, should_update_sm (.CycleSendContainerToWorkspace d) = true) ∧
    (∀ n, should_update_sm (.Hide n) = false) ∧
    (∀ n, should_update_sm (.Minimize n) = false) ∧
    (∀ n, should_update_sm (.Show n) = false) ∧
    (∀ n, should_update_sm (.TitleUpdate n) = false) ∧
    (∀ e w, should_update_wme (.Cloak e w) = true) ∧
    (∀ e w, should_update_wme (.Uncloak e w) = true) ∧
    (∀ e w, should_update_wme (.Destroy e w) = true) ∧
    (∀ e w, should_update_wme (.FocusChange e w) = false) ∧
    (∀ e w, should_update_wme (.Hide e w) = false) := by
  refine ⟨?_, ?_, ?_, ?_, ?_, ?_, ?_, ?_, ?_, ?_, ?_, ?_, ?_, ?_, ?_, ?_, ?_,
    ?_, ?_, ?_, ?_, ?_, ?_, ?_, ?_, ?_, ?_, ?_, ?_, ?_, ?_, ?_, ?_, ?_, ?_⟩ <;>
    intros <;> rfl

/-- C5: when the slot counts differ, `try_update` replaces the whole model
with the new snapshot, marks every resulting slot `name_changed` and
`state_changed`, and returns `true`. -/
theorem c5_structural_replace (m : Workspaces) (ws : List Workspace)
    (h : m.data.length ≠ ws.length) :
    m.try_update ws =
      ({ data := ws.map (fun w =>
          { data := w, name_changed := true, state_changed := true }) }, true) := by
  unfold Workspaces.try_update
  rw [if_neg h]

/-- Witness for C5: previous model of length 2, new snapshot of length 3. -/
theorem c5_structural_replace_witness :
    ((Workspaces.mk
        [{ data := { name := "1", state := .Empty },
           name_changed := false, state_changed := false },
         { data := { name := "2", state := .Focused },
           name_changed := false, state_changed := false }]).try_update
      [{ name := "1", state := .Empty },
       { name := "2", state := .NonEmpty },
       { name := "3", state := .Focused }]) =
      ({ data :=
          [{ data := { name := "1", state := .Empty },
             name_changed := true, state_changed := true },
           { data := { name := "2", state := .NonEmpty },
             name_changed := true, state_changed := true },
           { data := { name := "3", state := .Focused },
             name_changed := true, state_changed := true }] }, true) := by
  have h := c5_structural_replace
    (Workspaces.mk
      [{ data := { name := "1", state := .Empty },
         name_changed := false, state_changed := false },
       { data := { name := "2", state := .Focused },
         name_changed := false, state_changed := false }])
    [{ name := "1", state := .Empty },
     { name := "2", state := .NonEmpty },
     { name := "3", state := .Focused }] (by decide)
  rw [h]
  decide

/-- The per-index slot produced by the projector, as a standalone
function of the focused index. -/
def proj_slot (f : Nat) (p : Nat × KWorkspace) : Workspace :=
  { name := p.2.name.getD (toString (p.1 + 1)),
    state :=
      if f = p.1 then WorkspaceState.Focused
      else if p.2.is_empty then WorkspaceState.Empty
      else WorkspaceState.NonEmpty }

/-- With a focused monitor present, the projector succeeds and equals the
enumerate-and-map computation with that monitor's focused index. -/
theorem workspaces_from_state_eq (s : State) (mon : Monitor)
    (hm : s.monitors.focusedElem = some mon) :
    workspaces_from_state s =
      .ok (mon.workspaces.elements.enum.map
        (proj_slot mon.focused_workspace_idx)) := by
  unfold workspaces_from_state
  rw [hm]
  rfl

/-- Counting `Focused` slots over an enumeration starting at `n`: exactly
one when the focused index `f` lies in the enumerated index range,
otherwise zero. -/
theorem countP_focused_enumFrom (f : Nat) :
    ∀ (n : Nat) (ws : List KWorkspace),
      (((List.enumFrom n ws).map (proj_slot f)).countP
          (fun w => decide (w.state = WorkspaceState.Focused)))
        = if n ≤ f ∧ f < n + ws.length then 1 else 0
  | n, [] => by
    simp only [List.enumFrom_nil, List.map_nil, List.countP_nil, List.length_nil,
      Nat.add_zero]
    split_ifs with h <;> omega
  | n, w :: ws => by
    rw [List.enumFrom_cons, List.map_cons, List.countP_cons,
      countP_focused_enumFrom f (n + 1) ws, List.length_cons]
    by_cases hfn : f = n
    · subst hfn
      have hhead :
          decide ((proj_slot f (f, w)).state = WorkspaceState.Focused) = true := by
        simp [proj_slot]
      rw [hhead,
        if_neg (by omega : ¬(f + 1 ≤ f ∧ f < f + 1 + ws.length)),
        if_pos (by omega : f ≤ f ∧ f < f + (ws.length + 1))]
      simp
    · have hslot :
          decide ((proj_slot f (n, w)).state = WorkspaceState.Focused) = false := by
        simp only [proj_slot, if_neg hfn]
        cases w.is_empty <;> simp
      rw [hslot]
      by_cases hc : n + 1 ≤ f ∧ f < n + 1 + ws.length
      · rw [if_pos hc, if_pos (by omega : n ≤ f ∧ f < n + (ws.length + 1))]
        simp
      · rw [if_neg hc, if_neg (by omega : ¬(n ≤ f ∧ f < n + (ws.length + 1)))]
        simp

/-- Indexing into the projected list. -/
theorem proj_getElem (f : Nat) (el : List KWorkspace) (i : Nat)
    (hi : i < (el.enum.map (proj_slot f)).length) :
    (el.enum.map (proj_slot f)).get ⟨i, hi⟩ =
      proj_slot f (i, el.get ⟨i, by simpa using hi⟩) := by
  simp [List.get_eq_getElem, List.enum_eq_enumFrom, List.getElem_enumFrom]

/-- A projected slot is `Focused` exactly when its index is the focused
index. -/
theorem proj_slot_focused_iff (f i : Nat) (w : KWorkspace) :
    ((proj_slot f (i, w)).state = WorkspaceState.Focused) ↔ i = f := by
  show (if f = i then WorkspaceState.Focused
        else if w.is_empty then WorkspaceState.Empty
        else WorkspaceState.NonEmpty) = WorkspaceState.Focused ↔ i = f
  by_cases hfi : f = i
  · simp [hfi]
  · have hif : ¬ i = f := fun h => hfi h.symm
    rw [if_neg hfi]
    cases w.is_empty <;> simp [hif]

/-- A sample daemon state used by concrete witnesses: one focused monitor
with an unnamed empty workspace at index 0 (the focused one) and a named
occupied workspace at index 1. -/
def sample_monitor : Monitor :=
  { workspaces :=
      { elements :=
          [{ name := none, is_empty := true },
           { name := some "mail", is_empty := false }],
        focused := 0 } }

def sample_state : State :=
  { monitors := { elements := [sample_monitor], focused := 0 } }

/-- The change bit of `try_update` at equal slot counts, in isolation. -/
theorem try_update_snd (m : Workspaces) (ws : List Workspace)
    (h : m.data.length = ws.length) :
    (m.try_update ws).2 = (m.data.zip ws).any (fun p =>
      decide ¬(p.1.data.name = p.2.name) || decide ¬(p.1.data.state = p.2.state)) := by
  rw [try_update_eq_length m ws h]

/-- C6: `try_update` returns `true` exactly when the slot counts differ or,
at equal counts, at least one index has a differing label or differing
classification; in particular it returns `false` when the new snapshot
equals the previous model slot-for-slot. -/
theorem c6_changed_iff (m : Workspaces) (ws : List Workspace) :
    (m.try_update ws).2 = true ↔
      (m.data.length ≠ ws.length ∨
        ∃ i, ∃ hm : i < m.data.length, ∃ hw : i < ws.length,
          (¬ (m.data.get ⟨i, hm⟩).data.name = (ws.get ⟨i, hw⟩).name ∨
           ¬ (m.data.get ⟨i, hm⟩).data.state = (ws.get ⟨i, hw⟩).state)) := by
  by_cases h : m.data.length = ws.length
  · rw [try_update_snd m ws h, List.any_eq_true]
    constructor
    · rintro ⟨p, hpmem, hp⟩
      rw [List.mem_iff_getElem] at hpmem
      obtain ⟨i, hi, hgi⟩ := hpmem
      have hm : i < m.data.length := by
        rw [List.length_zip] at hi; omega
      have hw : i < ws.length := by
        rw [List.length_zip] at hi; omega
      refine Or.inr ⟨i, hm, hw, ?_⟩
      rw [List.getElem_zip] at hgi
      subst hgi
      simp only [Bool.or_eq_true, decide_eq_true_eq] at hp
      simpa [List.get_eq_getElem] using hp
    · rintro (hne | ⟨i, hm, hw, hcase⟩)
      · exact absurd h hne
      · refine ⟨(m.data.get ⟨i, hm⟩, ws.get ⟨i, hw⟩), ?_, ?_⟩
        · rw [List.mem_iff_getElem]
          refine ⟨i, ?_, ?_⟩
          · rw [List.length_zip]; omega
          · rw [List.getElem_zip]
            simp [List.get_eq_getElem]
        · simp only [Bool.or_eq_true, decide_eq_true_eq]
          exact hcase
  · unfold Workspaces.try_update
    rw [if_neg h]
    simp [h]

/-- C4 (counterexample to the claim as stated): a daemon state with a
focused monitor whose single-workspace list carries an out-of-range
focused-workspace index (index 1 with one workspace) projects to a
non-empty snapshot containing zero `Focused` slots, not exactly one. -/
theorem c4_out_of_range_counterexample :
    (workspaces_from_state
        { monitors :=
            { elements :=
                [{ workspaces :=
                    { elements := [{ name := none, is_empty := true }],
                      focused := 1 } }],
              focused := 0 } }
      = .ok [{ name := "1", state := WorkspaceState.Empty }]) ∧
    ([({ name := "1", state := WorkspaceState.Empty } : Workspace)].countP
        (fun w => decide (w.state = WorkspaceState.Focused)) = 0) ∧
    ([({ name := "1", state := WorkspaceState.Empty } : Workspace)].length ≠ 0) := by
  refine ⟨rfl, rfl, by decide⟩

/-- C4 (amended): for every daemon state with a focused monitor, the
projection succeeds, the number of `Focused` slots is exactly one when the
monitor's focused-workspace index is within the workspace list (hence zero
when the list is empty or the index is out of range, which the daemon never
produces), and a slot is `Focused` exactly when it sits at the focused
index. -/
theorem c4_focus_exclusivity (s : State) (mon : Monitor)
    (hm : s.monitors.focusedElem = some mon) :
    ∃ l, workspaces_from_state s = .ok l ∧
      l.countP (fun w => decide (w.state = WorkspaceState.Focused))
        = (if mon.focused_workspace_idx < mon.workspaces.elements.length
           then 1 else 0) ∧
      ∀ i, ∀ hi : i < l.length,
        ((l.get ⟨i, hi⟩).state = WorkspaceState.Focused ↔
          i = mon.focused_workspace_idx) := by
  refine ⟨_, workspaces_from_state_eq s mon hm, ?_, ?_⟩
  · rw [List.enum_eq_enumFrom, countP_focused_enumFrom]
    by_cases hf : mon.focused_workspace_idx < mon.workspaces.elements.length
    · rw [if_pos (by omega :
          0 ≤ mon.focused_workspace_idx ∧
            mon.focused_workspace_idx < 0 + mon.workspaces.elements.length),
        if_pos hf]
    · rw [if_neg (by omega :
          ¬(0 ≤ mon.focused_workspace_idx ∧
            mon.focused_workspace_idx < 0 + mon.workspaces.elements.length)),
        if_neg hf]
  · intro i hi
    rw [proj_getElem, proj_slot_focused_iff]

/-- Witness for C4 (amended) at the sample state: focused index 0 over two
workspaces. -/
theorem c4_focus_exclusivity_witness :
    ∃ l, workspaces_from_state sample_state = .ok l ∧
      l.countP (fun w => decide (w.state = WorkspaceState.Focused))
        = (if sample_monitor.focused_workspace_idx
              < sample_monitor.workspaces.elements.length
           then 1 else 0) ∧
      ∀ i, ∀ hi : i < l.length,
        ((l.get ⟨i, hi⟩).state = WorkspaceState.Focused ↔
          i = sample_monitor.focused_workspace_idx) :=
  c4_focus_exclusivity sample_state sample_monitor rfl

/-- C7: in a successful projection, the slot at index `i` carries the
daemon-supplied name when present, and the string `i + 1` when absent. -/
theorem c7_naming_fallback (s : State) (mon : Monitor)
    (hm : s.monitors.focusedElem = some mon)
    (i : Nat) (hi : i < mon.workspaces.elements.length) :
    ∃ l, workspaces_from_state s = .ok l ∧ ∃ hl : i < l.length,
      (l.get ⟨i, hl⟩).name =
        ((mon.workspaces.elements.get ⟨i, hi⟩).name.getD (toString (i + 1))) := by
  refine ⟨_, workspaces_from_state_eq s mon hm, ?_, ?_⟩
  · simpa using hi
  · rw [proj_getElem]
    rfl

/-- Witness for C7 at the sample state: the unnamed workspace at index 0
projects to name `"1"`, the named workspace at index 1 keeps `"mail"`. -/
theorem c7_naming_fallback_witness :
    (∃ l, workspaces_from_state sample_state = .ok l ∧ ∃ hl : 0 < l.length,
      (l.get ⟨0, hl⟩).name = "1") ∧
    (∃ l, workspaces_from_state sample_state = .ok l ∧ ∃ hl : 1 < l.length,
      (l.get ⟨1, hl⟩).name = "mail") := by
  constructor
  · obtain ⟨l, hEq, hl, hname⟩ :=
      c7_naming_fallback sample_state sample_monitor rfl 0 (by decide)
    refine ⟨l, hEq, hl, ?_⟩
    rw [hname]
    rfl
  · obtain ⟨l, hEq, hl, hname⟩ :=
      c7_naming_fallback sample_state sample_monitor rfl 1 (by decide)
    refine ⟨l, hEq, hl, ?_⟩
    rw [hname]
    rfl

/-- C3 (counterexample to the claim as stated): a relevant, well-decoded
notification whose delivery to the consumer fails does not have its failure
tolerated silently — the per-connection step propagates the posting error
instead of continuing. -/
theorem c3_post_failure_counterexample :
    process_payload
        (.decoded { event := .WindowManager (.Destroy 0 0), state := sample_state })
        (fun _ => .error "consumer gone")
      = .error "consumer gone" := rfl

/-- C3 (amended): when posting the projected snapshot to the consumer
fails, the error propagates out of the per-connection step (the `?` on
`PostMessage`), and the listen loop terminates with that error instead of
continuing. -/
theorem c3_post_failure_propagates (d : Decoded) (n : Notification)
    (post : List Workspace → Except String Unit) (e : String)
    (ws : List Workspace) (rest : List Decoded)
    (hd : d = .decoded n)
    (hrel : should_update_of_event n.event = true)
    (hproj : workspaces_from_state n.state = .ok ws)
    (hpost : post ws = .error e) :
    process_payload d post = .error e ∧
    listen_steps (d :: rest) post = .error e := by
  subst hd
  have hp : process_payload (.decoded n) post = .error e := by
    simp [process_payload, hrel, hproj, hpost]
  exact ⟨hp, by simp [listen_steps, hp]⟩

/-- Witness for C3 (amended) at a concrete notification and failing post. -/
theorem c3_post_failure_propagates_witness :
    process_payload
        (.decoded { event := .WindowManager (.Cloak 0 0), state := sample_state })
        (fun _ => .error "gone") = .error "gone" ∧
    listen_steps
        [.decoded { event := .WindowManager (.Cloak 0 0), state := sample_state }]
        (fun _ => .error "gone") = .error "gone" :=
  c3_post_failure_propagates _ _ _ _
    [{ name := "1", state := .Focused }, { name := "mail", state := .NonEmpty }] []
    rfl rfl rfl rfl

/-- C8 (counterexample to the claim as stated): after a detected
disconnect, with one failed registration attempt before success, the sleeps
performed are 30 seconds before the first attempt and 1 second between
attempts — neither delay lies in the claimed 2-to-3-second band. -/
theorem c8_delay_counterexample :
    reconnect_after_disconnect [false, true] = some [30, 1] ∧
    ¬(2 ≤ 30 ∧ (30 : Nat) ≤ 3) ∧ ¬(2 ≤ 1 ∧ (1 : Nat) ≤ 3) := by
  refine ⟨rfl, by decide, by decide⟩

/-- The registration retry loop, solved for a trace of `k` failures. -/
theorem retry_register_replicate (k : Nat) :
    retry_register (List.replicate k false ++ [true]) = some (List.replicate k 1) ∧
    retry_register (List.replicate k false) = none := by
  induction k with
  | zero => exact ⟨rfl, rfl⟩
  | succ n ih =>
    constructor
    · simp [List.replicate_succ, retry_register, ih.1]
    · simp [List.replicate_succ, retry_register, ih.2]

/-- C8 (amended): after a disconnect (zero-byte read) the session sleeps 30
seconds, then re-attempts registration indefinitely with a 1-second delay
between attempts until the call succeeds (for `k` failures then a success,
the sleeps are exactly `30, 1, …, 1` with `k` ones); while every attempt
keeps failing the loop is still retrying. -/
theorem c8_reconnect_schedule (k : Nat) :
    reconnect_after_disconnect (List.replicate k false ++ [true])
        = some (30 :: List.replicate k 1) ∧
    reconnect_after_disconnect (List.replicate k false) = none := by
  constructor
  · simp [reconnect_after_disconnect, (retry_register_replicate k).1]
  · simp [reconnect_after_disconnect, (retry_register_replicate k).2]

/-- C9: decode failures (bad bytes/JSON, or JSON that is not a
notification) are dropped without any delivery and without ending the
loop; a later well-formed relevant notification is still processed and
delivered — over the trace bad-bytes, bad-envelope, good, exactly the one
good snapshot is delivered. -/
theorem c9_malformed_skipped (n : Notification)
    (post : List Workspace → Except String Unit) (ws : List Workspace)
    (hrel : should_update_of_event n.event = true)
    (hproj : workspaces_from_state n.state = .ok ws)
    (hpost : post ws = .ok ()) :
    (process_payload .invalidJson post = .ok .skip) ∧
    (process_payload .invalidNotification post = .ok .skip) ∧
    listen_steps [.invalidJson, .invalidNotification, .decoded n] post
      = .ok [ws] := by
  exact ⟨rfl, rfl, by simp [listen_steps, process_payload, hrel, hproj, hpost]⟩

/-- Witness for C9 at a concrete trace: bad JSON, bad envelope, then a
relevant close-workspace notification over the sample state. -/
theorem c9_malformed_skipped_witness :
    (process_payload .invalidJson (fun _ => .ok ()) = .ok .skip) ∧
    (process_payload .invalidNotification (fun _ => .ok ()) = .ok .skip) ∧
    listen_steps
        [.invalidJson, .invalidNotification,
         .decoded { event := .Socket .CloseWorkspace, state := sample_state }]
        (fun _ => .ok ())
      = .ok [[{ name := "1", state := .Focused },
              { name := "mail", state := .NonEmpty }]] :=
  c9_malformed_skipped _ _ _ rfl rfl rfl

/-- C10: the boxed cross-thread message encoding round-trips — decoding the
window message produced from a workspace ring yields exactly that ring, and
the box is consumed (ownership is reconstituted on the receiving side: the
heap no longer owns the allocation). -/
theorem c10_wndmsg_roundtrip (h : BoxHeap) (w : Ring KWorkspace) :
    (UpdateWorkspaces.from_wndmsg (UpdateWorkspaces.to_wmdmsg h w).1
        (UpdateWorkspaces.to_wmdmsg h w).2).1 = some w ∧
    (UpdateWorkspaces.from_wndmsg (UpdateWorkspaces.to_wmdmsg h w).1
        (UpdateWorkspaces.to_wmdmsg h w).2).2.mem
      (UpdateWorkspaces.to_wmdmsg h w).2.lparam = none := by
  constructor
  · simp [UpdateWorkspaces.to_wmdmsg, UpdateWorkspaces.from_wndmsg]
  · simp [UpdateWorkspaces.to_wmdmsg, UpdateWorkspaces.from_wndmsg]

end Komoswitch
